import Mathlib

/-!
Verification development for the carla-ackermann vehicle controller core.

The Rust source is embedded shallowly over ℚ: every `f64` becomes a rational
number, `f64::clamp(lo, hi)` becomes `rclamp` (the source never calls it with
`lo > hi`), and `f64::is_sign_positive` becomes `0 ≤ x` (on ℚ there is a single
zero, which `is_sign_positive` classifies as positive).  `sin(pitch)` is passed
to the physics model as a precomputed rational `sin_pitch` argument, since the
source only ever consumes `pitch_radians.sin()`.  Fallible code (the
`assert!(time_delta_sec > 0.0)` precondition of `VehicleController::step`)
is embedded as an `Option` result.
-/

namespace CarlaAckermann

/-- Rust `f64::clamp(lo, hi)`: `min (max x lo) hi`.  The source only invokes it
with `lo ≤ hi` (the configured envelopes), where this agrees with Rust. -/
def rclamp (x lo hi : ℚ) : ℚ := min (max x lo) hi

/-- Rust `f64::is_sign_positive`, modelled on ℚ as `0 ≤ x` (`+0.0` counts as
positive in Rust; ℚ has a single zero). -/
def isSignPositive (x : ℚ) : Bool := decide (0 ≤ x)

/-- Modelled from the spec: `src/src/constants.rs` is referenced by the source
(`FULL_STOP_SPEED_MS`, `STAND_STILL_SPEED_MS`, `INTERNAL_ACCEL_MS2`) but is not
under `src/`.  The spec fixes only that these are small speed magnitudes with
`fullStopSpeedThreshold < standStillSpeedThreshold` (§4.4, glossary), plus a
small near-inertial acceleration threshold (§4.4 step 3), so the thresholds are
kept abstract here and concrete witnesses pick values satisfying the ordering. -/
structure Constants where
  fullStopSpeedMs : ℚ
  standStillSpeedMs : ℚ
  internalAccelMs2 : ℚ

/-- Modelled from the spec: the PID loop implementation is the external `pid`
crate (constructed in `src/src/pid.rs` by `PidInit::build` via
`Pid::new(kp, ki, kd, f64::MAX, f64::MAX, f64::MAX, output_limit, 0.0)`, i.e.
with unlimited per-term limits and setpoint 0).  Per spec §4.2 it holds P/I/D
gains and a settable setpoint, accumulates an integrator across calls,
differentiates on the measurement, and hard-clamps the summed output to
`[-outputLimit, outputLimit]`. -/
structure Pid where
  kp : ℚ
  ki : ℚ
  kd : ℚ
  outputLimit : ℚ
  setpoint : ℚ
  integralTerm : ℚ
  prevMeasurement : Option ℚ

/-- One PID evaluation: returns the bounded output together with the updated
loop memory (integrator and previous measurement). -/
def Pid.nextControlOutput (pid : Pid) (measurement : ℚ) : ℚ × Pid :=
  let error := pid.setpoint - measurement
  let p := pid.kp * error
  let integralTerm := pid.integralTerm + pid.ki * error
  let d := -(pid.kd * (match pid.prevMeasurement with
    | some prev => measurement - prev
    | none => 0))
  let output := rclamp (p + integralTerm + d) (-|pid.outputLimit|) |pid.outputLimit|
  (output, { pid with integralTerm := integralTerm, prevMeasurement := some measurement })

/-- `PidInit` of `src/src/pid.rs`. -/
structure PidInit where
  kp : ℚ
  ki : ℚ
  kd : ℚ
  output_limit : ℚ

/-- `PidInit::build`: fresh loop memory, setpoint 0. -/
def PidInit.build (i : PidInit) : Pid :=
  { kp := i.kp, ki := i.ki, kd := i.kd, outputLimit := i.output_limit
    setpoint := 0, integralTerm := 0, prevMeasurement := none }

/-- `DelayedActivator` of `src/src/speed_control.rs` (the debounce counter; its
`inc`/`dec` are only reachable from the commented-out hysteresis path). -/
structure DelayedActivator where
  max : ℕ
  cur : ℕ

/-- `DelayedActivator::new`. -/
def DelayedActivator.new (max : ℕ) : DelayedActivator := ⟨max, 0⟩

/-- `DelayedActivator::inc`. -/
def DelayedActivator.inc (d : DelayedActivator) : Bool × DelayedActivator :=
  let next := if d.max = d.cur then d.max else d.cur + 1
  (decide (next = d.max), ⟨d.max, next⟩)

/-- `DelayedActivator::dec`. -/
def DelayedActivator.dec (d : DelayedActivator) : DelayedActivator :=
  ⟨d.max, d.cur - 1⟩

/-- `ACCELERATION_OF_GRAVITY` of `src/src/physics.rs`. -/
def ACCELERATION_OF_GRAVITY : ℚ := 981 / 100

/-- `VehiclePhysics` of `src/src/physics.rs`. -/
structure VehiclePhysics where
  engine_brake_force : ℚ
  mass : ℚ
  lay_off_engine_acceleration : ℚ
  weight_force : ℚ
  rolling_resistance_force : ℚ
  max_steering_angle : ℚ
  max_speed : ℚ
  max_acceleration : ℚ
  max_deceleration : ℚ

/-- `VehiclePhysics::new`.  The source derives `max_steering_angle` from the
external carla `VehiclePhysicsControl` wheel list (max per-wheel angle, with a
default fallback); here the resolved angle is taken as a parameter.  All other
derived scalars follow the source verbatim (`180.0/3.6 = 50`,
`max_accel = 3.0`, `max_deceleration = 8.0`). -/
def VehiclePhysics.new (mass max_steering_angle : ℚ) : VehiclePhysics :=
  let rolling_resistance_coefficient : ℚ := 1 / 100
  let engine_brake_force : ℚ := 500
  let lay_off_engine_acceleration : ℚ := -engine_brake_force / mass
  let weight_force := mass * ACCELERATION_OF_GRAVITY
  let rolling_resistance_force := rolling_resistance_coefficient * weight_force
  { engine_brake_force := engine_brake_force
    mass := mass
    lay_off_engine_acceleration := lay_off_engine_acceleration
    weight_force := weight_force
    rolling_resistance_force := rolling_resistance_force
    max_steering_angle := max_steering_angle
    max_speed := 180 / (36 / 10)
    max_acceleration := 3
    max_deceleration := 8 }

/-- `VehiclePhysics::driving_impedance_acceleration`.  `sin_pitch` is the
precomputed `pitch_radians.sin()` of the source. -/
def VehiclePhysics.driving_impedance_acceleration (phys : VehiclePhysics)
    (speed sin_pitch : ℚ) (reverse : Bool) : ℚ :=
  let speed_squared := speed ^ 2
  let slope_force_value := -ACCELERATION_OF_GRAVITY * phys.mass * sin_pitch
  let slope_force := if reverse then -slope_force_value else slope_force_value
  -- drag coefficient 0.3, reference area 2.37, air density 1.184 as in the source
  let drag_area : ℚ := (3 / 10) * (237 / 100)
  let rho_air_25 : ℚ := 1184 / 1000
  let aerodynamic_drag_force := (1 / 2) * drag_area * rho_air_25 * speed_squared
  let impedance :=
    -(phys.rolling_resistance_force + aerodynamic_drag_force + slope_force) / phys.mass
  impedance

/-- `SteerController` of `src/src/steer_control.rs`. -/
structure SteerController where
  target_steering_angle : ℚ
  max_steering_angle : ℚ

/-- `SteerController::new`. -/
def SteerController.new (max_steering_angle : ℚ) : SteerController :=
  { max_steering_angle := max_steering_angle, target_steering_angle := 0 }

/-- `SteerController::set_target`: clamps the requested angle to
`±max_steering_angle`. -/
def SteerController.set_target (st : SteerController) (target_steering_angle : ℚ) :
    SteerController :=
  { st with target_steering_angle :=
      rclamp target_steering_angle (-st.max_steering_angle) st.max_steering_angle }

/-- `SteerController::steer_ratio`: `target / max` with no sign change. -/
def SteerController.steer_ratio (st : SteerController) : ℚ :=
  st.target_steering_angle / st.max_steering_angle

/-- `SpeedControllerInit` of `src/src/speed_control.rs`. -/
structure SpeedControllerInit where
  pid : PidInit
  max_speed : ℚ
  max_accel : ℚ
  min_accel : ℚ
  max_decel : ℚ

/-- `SpeedControllerInit::from_physics` (gains kp 0.05, ki 0, kd 0.5, limit 1). -/
def SpeedControllerInit.from_physics (physics : VehiclePhysics) (min_accel : Option ℚ) :
    SpeedControllerInit :=
  { pid := { kp := 1/20, ki := 0, kd := 1/2, output_limit := 1 }
    max_speed := physics.max_speed
    max_accel := physics.max_acceleration
    min_accel := min_accel.getD 1
    max_decel := physics.max_deceleration }

/-- `SpeedController` of `src/src/speed_control.rs`. -/
structure SpeedController where
  speed_pid : Pid
  accel_activator : DelayedActivator
  target_speed : ℚ
  target_accel : ℚ
  max_speed : ℚ
  max_accel : ℚ
  min_accel : ℚ
  max_decel : ℚ

/-- `SpeedControllerInit::build`. -/
def SpeedControllerInit.build (i : SpeedControllerInit) : SpeedController :=
  { speed_pid := i.pid.build
    accel_activator := DelayedActivator.new 5
    target_speed := 0
    target_accel := 0
    max_speed := i.max_speed
    max_accel := i.max_accel
    min_accel := i.min_accel
    max_decel := i.max_decel }

/-- `SpeedController::set_target`: clamp the speed to `±max_speed`; clamp the
acceleration to `[-max_decel, max_accel]` when the clamped speed's magnitude is
at least `FULL_STOP_SPEED_MS`, otherwise force it to `-max_decel`. -/
def SpeedController.set_target (c : Constants) (st : SpeedController)
    (target_speed target_accel : ℚ) : SpeedController :=
  let ts := rclamp target_speed (-st.max_speed) st.max_speed
  let ta :=
    if c.fullStopSpeedMs ≤ |ts| then rclamp target_accel (-st.max_decel) st.max_accel
    else -st.max_decel
  { st with target_speed := ts, target_accel := ta }

/-- `SpeedControl`, the result record of `SpeedController::step`. -/
structure SpeedControl where
  setpoint_accel : ℚ
  delta_accel : ℚ
  full_stop : Bool

/-- `SpeedController::step`.  The source fixes
`is_speed_control_enabled = true` (the debounce path is commented out), so only
the enabled branch is embedded.  The Rust
`match (is_standing, is_stopping)` is written as nested ifs with identical
case selection. -/
def SpeedController.step (c : Constants) (st : SpeedController) (current_speed : ℚ) :
    SpeedControl × SpeedController :=
  let is_standing : Bool := decide (|current_speed| < c.standStillSpeedMs)
  let is_stopping : Bool := decide (|st.target_speed| < c.fullStopSpeedMs)
  let is_full_stop : Bool := is_standing && is_stopping
  let setpoint_speed : ℚ :=
    if is_standing then
      if is_stopping then 0 else st.target_speed
    else
      if xor (isSignPositive current_speed) (isSignPositive st.target_speed) then 0
      else st.target_speed
  let target_accel_abs := |st.target_accel|
  let is_inertial : Bool := decide (target_accel_abs < c.internalAccelMs2)
  let pid0 := { st.speed_pid with setpoint := |setpoint_speed| }
  let pidRes := pid0.nextControlOutput current_speed
  let lower := if is_inertial then -st.max_decel else -target_accel_abs
  let upper := if is_inertial then st.max_accel else target_accel_abs
  let prev_target := if is_full_stop then 0 else st.target_accel
  let target := rclamp (prev_target + pidRes.1) lower upper
  (⟨target, pidRes.1, is_full_stop⟩, { st with speed_pid := pidRes.2 })

/-- `AccelControllerInit` of `src/src/accel_control.rs`. -/
structure AccelControllerInit where
  pid : PidInit
  max_pedal : ℚ

/-- `AccelControllerInit::from_physics` (gains kp 0.05, ki 0, kd 0.05, limit 1;
`max_pedal = min(max_accel, max_deceleration)`). -/
def AccelControllerInit.from_physics (physics : VehiclePhysics) : AccelControllerInit :=
  { pid := { kp := 1/20, ki := 0, kd := 1/20, output_limit := 1 }
    max_pedal := min physics.max_acceleration physics.max_deceleration }

/-- `AccelController` of `src/src/accel_control.rs`. -/
structure AccelController where
  accel_pid : Pid
  target_accel : ℚ
  target_pedal : ℚ
  max_pedal : ℚ

/-- `AccelControllerInit::build`. -/
def AccelControllerInit.build (i : AccelControllerInit) : AccelController :=
  { accel_pid := i.pid.build, target_accel := 0, target_pedal := 0, max_pedal := i.max_pedal }

/-- `AccelController::set_target_accel`. -/
def AccelController.set_target_accel (st : AccelController) (target_accel : ℚ) :
    AccelController :=
  { st with target_accel := target_accel }

/-- `AccelController::reset_target_pedal`. -/
def AccelController.reset_target_pedal (st : AccelController) : AccelController :=
  { st with target_pedal := 0 }

/-- `AccelControl`, the result record of `AccelController::step`.  (The caller
in `src/src/vehicle_control.rs` binds this field as `target_pedal`; the spec
notes the field-name drift between variants in §9.) -/
structure AccelControl where
  pedal_target : ℚ
  pedal_delta : ℚ

/-- `AccelController::step`: one PID evaluation against the measured
acceleration, added onto the carried pedal and clamped to `±max_pedal`. -/
def AccelController.step (st : AccelController) (current_accel : ℚ) :
    AccelControl × AccelController :=
  let pid0 := { st.accel_pid with setpoint := st.target_accel }
  let pidRes := pid0.nextControlOutput current_accel
  let curr_pedal_target := rclamp (st.target_pedal + pidRes.1) (-st.max_pedal) st.max_pedal
  (⟨curr_pedal_target, pidRes.1⟩,
   { st with accel_pid := pidRes.2, target_pedal := curr_pedal_target })

/-- `Measurement` of `src/src/vehicle_control.rs`. -/
structure Measurement where
  time_sec : ℚ
  speed : ℚ
  accel : ℚ

/-- `Measurement::default`. -/
def Measurement.default : Measurement := ⟨0, 0, 0⟩

/-- `Measurement::update`: differentiate the speed; zero both speed and
acceleration whenever the signed `current_speed` is below
`FULL_STOP_SPEED_MS`. -/
def Measurement.update (c : Constants) (m : Measurement)
    (time_delta_sec current_speed : ℚ) : Measurement :=
  let speed_delta := current_speed - m.speed
  let current_accel := speed_delta / time_delta_sec
  let time_sec := m.time_sec + time_delta_sec
  if current_speed < c.fullStopSpeedMs then
    { time_sec := time_sec, speed := 0, accel := 0 }
  else
    { time_sec := time_sec, speed := current_speed, accel := current_accel }

/-- `Status` of `src/src/vehicle_control.rs`. -/
inductive Status where
  | FullStop
  | Accelerating
  | Coasting
  | Braking
deriving DecidableEq

/-- Position of a status along the braking-to-accelerating sweep
(used to state monotonicity; `FullStop` never occurs in a sweep). -/
def Status.rank : Status → ℕ
  | .Braking => 0
  | .Coasting => 1
  | .Accelerating => 2
  | .FullStop => 0

/-- `Output` of `src/src/vehicle_control.rs`. -/
structure Output where
  throttle : ℚ
  brake : ℚ
  steer : ℚ
  reverse : Bool
  hand_brake : Bool
deriving DecidableEq

/-- `Report` of `src/src/vehicle_control.rs`. -/
structure Report where
  status : Status
  setpoint_accel : ℚ
  target_pedal : ℚ
  delta_accel : ℚ
  pedal_delta : ℚ
deriving DecidableEq

/-- `TargetRequest` of `src/src/vehicle_control.rs`. -/
structure TargetRequest where
  steering_angle : ℚ
  speed : ℚ
  accel : ℚ

/-- The regime classification and output construction at the end of
`VehicleController::step` (`src/src/vehicle_control.rs`, the
`if full_stop / else if target_pedal > throttle_lower_border / else if
target_pedal > brake_upper_border / else` chain), extracted verbatim as a
function of the values it reads. -/
def classifyAndOutput (full_stop : Bool) (steer : ℚ) (reverse : Bool)
    (target_pedal throttle_lower_border brake_upper_border max_pedal : ℚ) :
    Status × Output :=
  if full_stop then
    (.FullStop,
     { hand_brake := true, steer := steer, reverse := reverse, brake := 1, throttle := 0 })
  else if throttle_lower_border < target_pedal then
    (.Accelerating,
     { hand_brake := false, steer := steer, reverse := reverse, brake := 0
       throttle := (target_pedal - throttle_lower_border) / max_pedal })
  else if brake_upper_border < target_pedal then
    (.Coasting,
     { hand_brake := false, steer := steer, reverse := reverse, brake := 0, throttle := 0 })
  else
    (.Braking,
     { hand_brake := false, steer := steer, reverse := reverse
       brake := (brake_upper_border - target_pedal) / max_pedal, throttle := 0 })

/-- `VehicleController` of `src/src/vehicle_control.rs`. -/
structure VehicleController where
  measurement : Measurement
  physics : VehiclePhysics
  speed_controller : SpeedController
  accel_controller : AccelController
  steer_controller : SteerController

/-- `VehicleControllerInit` of `src/src/vehicle_control.rs`. -/
structure VehicleControllerInit where
  physics : VehiclePhysics
  speed_controller : SpeedControllerInit
  accel_controller : AccelControllerInit
  max_steering_angle : ℚ

/-- `VehicleControllerInit::from_physics`. -/
def VehicleControllerInit.from_physics (physics : VehiclePhysics) (min_accel : Option ℚ) :
    VehicleControllerInit :=
  { speed_controller := SpeedControllerInit.from_physics physics min_accel
    accel_controller := AccelControllerInit.from_physics physics
    max_steering_angle := physics.max_steering_angle
    physics := physics }

/-- `VehicleControllerInit::build`. -/
def VehicleControllerInit.build (i : VehicleControllerInit) : VehicleController :=
  { measurement := Measurement.default
    physics := i.physics
    speed_controller := i.speed_controller.build
    accel_controller := i.accel_controller.build
    steer_controller := SteerController.new i.max_steering_angle }

/-- `VehicleController::from_physics`. -/
def VehicleController.from_physics (physics : VehiclePhysics) (min_accel : Option ℚ) :
    VehicleController :=
  (VehicleControllerInit.from_physics physics min_accel).build

/-- `VehicleController::set_target`. -/
def VehicleController.set_target (c : Constants) (st : VehicleController)
    (target : TargetRequest) : VehicleController :=
  { st with
    steer_controller := st.steer_controller.set_target target.steering_angle
    speed_controller := st.speed_controller.set_target c target.speed target.accel }

/-- `VehicleController::step`.  The `assert!(time_delta_sec > 0.0)` precondition
is embedded as the `Option`: `none` models the aborted call (no output, no state
update).  Otherwise the body follows the source order: update the measurement,
read the steer ratio, run the speed stage on the raw current speed, push its
setpoint into the acceleration stage (resetting the carried pedal on full stop),
run the acceleration stage on the measured acceleration, derive the physics
borders from the updated measurement, and classify. -/
def VehicleController.step (c : Constants) (st : VehicleController)
    (time_delta_sec current_speed sin_pitch : ℚ) :
    Option (Output × Report × VehicleController) :=
  if 0 < time_delta_sec then
    let measurement := st.measurement.update c time_delta_sec current_speed
    let steer := st.steer_controller.steer_ratio
    let scRes := st.speed_controller.step c current_speed
    let ac0 := st.accel_controller.set_target_accel scRes.1.setpoint_accel
    let ac1 := if scRes.1.full_stop then ac0.reset_target_pedal else ac0
    let acRes := ac1.step measurement.accel
    let reverse : Bool := decide (scRes.2.target_speed < 0)
    let throttle_lower_border :=
      st.physics.driving_impedance_acceleration measurement.speed sin_pitch reverse
    let brake_upper_border := throttle_lower_border + st.physics.lay_off_engine_acceleration
    let cls := classifyAndOutput scRes.1.full_stop steer reverse acRes.1.pedal_target
      throttle_lower_border brake_upper_border ac1.max_pedal
    some (cls.2,
      { status := cls.1
        setpoint_accel := scRes.1.setpoint_accel
        target_pedal := acRes.1.pedal_target
        delta_accel := scRes.1.delta_accel
        pedal_delta := acRes.1.pedal_delta },
      { st with
        measurement := measurement
        speed_controller := scRes.2
        accel_controller := acRes.2 })
  else
    none

/-- Iterated `VehicleController::step` over a list of per-tick inputs
`(time_delta_sec, current_speed, sin_pitch)`, collecting each tick's
output and report; `none` as soon as one tick violates the `dt > 0`
precondition. -/
def runTicks (c : Constants) :
    VehicleController → List (ℚ × ℚ × ℚ) → Option (List (Output × Report) × VehicleController)
  | st, [] => some ([], st)
  | st, (dt, v, s) :: rest =>
    match st.step c dt v s with
    | none => none
    | some (out, rep, st') =>
      match runTicks c st' rest with
      | none => none
      | some (outs, stF) => some ((out, rep) :: outs, stF)

/-! Concrete instances used by witnesses and counterexamples. -/

/-- Concrete threshold choice satisfying the spec's ordering:
full stop 0.1 m/s, stand still 0.5 m/s, near-inertial 0.1 m/s². -/
def cA : Constants := ⟨1/10, 1/2, 1/10⟩

/-- A 1000 kg vehicle whose wheels report a 1 rad steering limit. -/
def physA : VehiclePhysics := VehiclePhysics.new 1000 1

/-- Freshly built controller for `physA`. -/
def ctrlA : VehicleController := VehicleController.from_physics physA none

/-- State used by the C2 failing input: a controller for `physA` whose
acceleration stage carries the maximal pedal target `3 = max_pedal` (the value
the carried pedal converges to under a sustained positive setpoint), measured
speed 1 m/s, speed target 5 m/s.  Every stated state invariant holds
(`|target_pedal| ≤ max_pedal`, `|target_speed| ≤ max_speed`,
`|target_steering_angle| ≤ max_steering_angle`). -/
def stPedalMax : VehicleController :=
  { measurement := ⟨0, 1, 0⟩
    physics := physA
    speed_controller :=
      { speed_pid := ⟨1/20, 0, 1/2, 1, 0, 0, some 1⟩
        accel_activator := ⟨5, 0⟩
        target_speed := 5, target_accel := 1
        max_speed := 50, max_accel := 3, min_accel := 1, max_decel := 8 }
    accel_controller :=
      { accel_pid := ⟨1/20, 0, 1/20, 1, 0, 0, some 0⟩
        target_accel := 0, target_pedal := 3, max_pedal := 3 }
    steer_controller := ⟨0, 1⟩ }

/-- Freshly built controller with the target `(steering 0, speed 0, accel 0)`
set: the speed target 0 forces the acceleration target to `-max_decel`. -/
def stStopTarget : VehicleController := ctrlA.set_target cA ⟨0, 0, 0⟩

/-- Pitch sine that places `brake_upper_border` exactly on the pedal target
produced by one `step` of `stStopTarget` at speed 1 m/s. -/
def sinPitchBoundary : ℚ := 148520912 / 9810000000

/-- Freshly built speed controller for `physA`. -/
def spdA : SpeedController := (SpeedControllerInit.from_physics physA none).build

/-- Freshly built acceleration-stage initializer for `physA`. -/
def acInitA : AccelControllerInit := AccelControllerInit.from_physics physA

/-! Helper lemmas shared by the claim theorems. -/

theorem abs_rclamp_le (x m : ℚ) (hm : 0 ≤ m) : |rclamp x (-m) m| ≤ m :=
  abs_le.mpr ⟨le_min (le_max_right _ _) (neg_le_self hm), min_le_right _ _⟩

/-- C9: `Measurement::update` compares the signed current speed (not its
magnitude) against the full-stop threshold, so for every `current_speed` below
the threshold — including every negative speed, e.g. −10 m/s while reversing —
the stored measurement speed and acceleration are both set to 0; these zeroed
fields are exactly what `VehicleController::step` then feeds to the
acceleration PID and the impedance evaluation. -/
theorem measurement_update_signed_threshold (c : Constants) (m : Measurement)
    (dt v : ℚ) (h : v < c.fullStopSpeedMs) :
    m.update c dt v = ⟨m.time_sec + dt, 0, 0⟩ := by
  simp [Measurement.update, h]

/-- Witness for `measurement_update_signed_threshold` at the reversing speed
−10 m/s. -/
theorem measurement_update_signed_threshold_witness :
    ((-10 : ℚ) < cA.fullStopSpeedMs) ∧
      Measurement.update cA ⟨0, 20, 0⟩ 1 (-10) = ⟨1, 0, 0⟩ :=
  ⟨by norm_num [cA],
   by simpa using measurement_update_signed_threshold cA ⟨0, 20, 0⟩ 1 (-10) (by norm_num [cA])⟩

/-- C10: the acceleration stage keeps `|target_pedal| ≤ max_pedal` across every
operation: it is 0 at construction and after `reset_target_pedal`, and `step`
stores and returns `(previous pedal + PID delta)` clamped to
`[-max_pedal, max_pedal]`, the returned pedal target being the newly stored
value. -/
theorem accel_pedal_invariant (i : AccelControllerInit) (st : AccelController)
    (current_accel : ℚ) (h : 0 ≤ st.max_pedal) :
    i.build.target_pedal = 0 ∧
    st.reset_target_pedal.target_pedal = 0 ∧
    (st.step current_accel).2.target_pedal
      = rclamp (st.target_pedal + (st.step current_accel).1.pedal_delta)
          (-st.max_pedal) st.max_pedal ∧
    (st.step current_accel).1.pedal_target = (st.step current_accel).2.target_pedal ∧
    |(st.step current_accel).2.target_pedal| ≤ st.max_pedal := by
  refine ⟨rfl, rfl, rfl, rfl, ?_⟩
  exact abs_rclamp_le _ _ h

/-- Witness for `accel_pedal_invariant` on the freshly built stage for
`physA`. -/
theorem accel_pedal_invariant_witness :
    (0 ≤ acInitA.build.max_pedal) ∧
    acInitA.build.target_pedal = 0 ∧
    acInitA.build.reset_target_pedal.target_pedal = 0 ∧
    (acInitA.build.step 1).2.target_pedal
      = rclamp (acInitA.build.target_pedal + (acInitA.build.step 1).1.pedal_delta)
          (-acInitA.build.max_pedal) acInitA.build.max_pedal ∧
    (acInitA.build.step 1).1.pedal_target = (acInitA.build.step 1).2.target_pedal ∧
    |(acInitA.build.step 1).2.target_pedal| ≤ acInitA.build.max_pedal := by
  have hmp : 0 ≤ acInitA.build.max_pedal := by
    norm_num [acInitA, AccelControllerInit.from_physics, AccelControllerInit.build, physA,
      VehiclePhysics.new, le_min_iff]
  exact ⟨hmp, accel_pedal_invariant acInitA acInitA.build 1 hmp⟩

/-- C4: `SpeedController::set_target` stores the speed clamped to
`[-max_speed, max_speed]` (so its magnitude never exceeds `max_speed`), and
stores the acceleration clamped to `[-max_decel, max_accel]` when the clamped
speed's magnitude is at least the full-stop threshold, but exactly `-max_decel`
when it is below the threshold. -/
theorem speed_set_target_clamps (c : Constants) (st : SpeedController)
    (target_speed target_accel : ℚ) (hms : 0 ≤ st.max_speed) :
    (st.set_target c target_speed target_accel).target_speed
      = min (max target_speed (-st.max_speed)) st.max_speed ∧
    |(st.set_target c target_speed target_accel).target_speed| ≤ st.max_speed ∧
    (c.fullStopSpeedMs ≤ |(st.set_target c target_speed target_accel).target_speed| →
      (st.set_target c target_speed target_accel).target_accel
        = min (max target_accel (-st.max_decel)) st.max_accel) ∧
    (|(st.set_target c target_speed target_accel).target_speed| < c.fullStopSpeedMs →
      (st.set_target c target_speed target_accel).target_accel = -st.max_decel) := by
  refine ⟨rfl, abs_rclamp_le _ _ hms, ?_, ?_⟩
  · intro h
    have h' : c.fullStopSpeedMs ≤ |rclamp target_speed (-st.max_speed) st.max_speed| := h
    simp only [SpeedController.set_target]
    rw [if_pos h']
    rfl
  · intro h
    have h' : ¬ c.fullStopSpeedMs ≤ |rclamp target_speed (-st.max_speed) st.max_speed| :=
      not_le.mpr h
    simp only [SpeedController.set_target]
    rw [if_neg h']

/-- Witness for `speed_set_target_clamps`: request (60 m/s, 10 m/s²) on the
fresh controller; both get clamped, and the accel branch is the clamped one
since the stored speed 50 is above the threshold. -/
theorem speed_set_target_clamps_witness :
    (0 ≤ spdA.max_speed) ∧
    (spdA.set_target cA 60 10).target_speed = min (max 60 (-spdA.max_speed)) spdA.max_speed ∧
    |(spdA.set_target cA 60 10).target_speed| ≤ spdA.max_speed ∧
    (cA.fullStopSpeedMs ≤ |(spdA.set_target cA 60 10).target_speed| →
      (spdA.set_target cA 60 10).target_accel
        = min (max 10 (-spdA.max_decel)) spdA.max_accel) ∧
    (|(spdA.set_target cA 60 10).target_speed| < cA.fullStopSpeedMs →
      (spdA.set_target cA 60 10).target_accel = -spdA.max_decel) := by
  have hms : 0 ≤ spdA.max_speed := by
    norm_num [spdA, SpeedControllerInit.from_physics, SpeedControllerInit.build, physA,
      VehiclePhysics.new]
  exact ⟨hms, speed_set_target_clamps cA spdA 60 10 hms⟩

/-- C3 (amended): `steer_ratio` returns `target / max_steering_angle`, a value
in `[-1, 1]` (for a positive steering limit) whose sign AGREES with the raw
requested angle: `SteerController::set_target` clamps without negating, so a
positive request yields a positive ratio. -/
theorem steer_ratio_bounds (st : SteerController) (angle : ℚ)
    (h : 0 < st.max_steering_angle) :
    |(st.set_target angle).steer_ratio| ≤ 1 ∧
    (st.set_target angle).steer_ratio
      = (st.set_target angle).target_steering_angle / st.max_steering_angle ∧
    (0 < angle → 0 < (st.set_target angle).steer_ratio) ∧
    (angle < 0 → (st.set_target angle).steer_ratio < 0) ∧
    (angle = 0 → (st.set_target angle).steer_ratio = 0) := by
  have habs : |rclamp angle (-st.max_steering_angle) st.max_steering_angle|
      ≤ st.max_steering_angle := abs_rclamp_le _ _ h.le
  refine ⟨?_, rfl, ?_, ?_, ?_⟩
  · show |rclamp angle (-st.max_steering_angle) st.max_steering_angle
      / st.max_steering_angle| ≤ 1
    rw [abs_div, abs_of_pos h, div_le_one h]
    exact habs
  · intro ha
    show 0 < rclamp angle (-st.max_steering_angle) st.max_steering_angle
      / st.max_steering_angle
    refine div_pos ?_ h
    exact lt_min (lt_max_of_lt_left ha) h
  · intro ha
    show rclamp angle (-st.max_steering_angle) st.max_steering_angle
      / st.max_steering_angle < 0
    refine div_neg_of_neg_of_pos ?_ h
    exact lt_of_le_of_lt (min_le_left _ _) (max_lt ha (neg_neg_of_pos h))
  · intro ha
    show rclamp angle (-st.max_steering_angle) st.max_steering_angle
      / st.max_steering_angle = 0
    subst ha
    rw [rclamp, max_eq_left (neg_nonpos_of_nonneg h.le), min_eq_left h.le, zero_div]

/-- C3 counterexample: on the code, a positive raw requested angle yields a
POSITIVE ratio, not a non-positive one — `steer_control.rs` clamps without the
sign inversion the spec describes. -/
theorem steer_ratio_sign_cex :
    ((SteerController.new 1).set_target (1/2)).steer_ratio = 1/2 ∧ (0 : ℚ) < 1/2 := by
  constructor
  · norm_num [SteerController.new, SteerController.set_target, SteerController.steer_ratio,
      rclamp]
  · norm_num

/-- Witness for `steer_ratio_bounds` at limit 1 rad, request 1/2 rad. -/
theorem steer_ratio_bounds_witness :
    (0 < (SteerController.new 1).max_steering_angle) ∧
    (|((SteerController.new 1).set_target (1/2)).steer_ratio| ≤ 1 ∧
     ((SteerController.new 1).set_target (1/2)).steer_ratio
       = ((SteerController.new 1).set_target (1/2)).target_steering_angle
           / (SteerController.new 1).max_steering_angle ∧
     (0 < (1/2 : ℚ) → 0 < ((SteerController.new 1).set_target (1/2)).steer_ratio) ∧
     ((1/2 : ℚ) < 0 → ((SteerController.new 1).set_target (1/2)).steer_ratio < 0) ∧
     ((1/2 : ℚ) = 0 → ((SteerController.new 1).set_target (1/2)).steer_ratio = 0)) := by
  have h : 0 < (SteerController.new 1).max_steering_angle := by
    norm_num [SteerController.new]
  exact ⟨h, steer_ratio_bounds (SteerController.new 1) (1/2) h⟩

/-- C5: in the Driving regime (current speed magnitude at or above the
stand-still threshold), when current and stored target speed have strictly
opposite signs the effective speed setpoint stored into the speed PID is 0,
not the target speed. -/
theorem opposite_sign_speed_setpoint_zero (c : Constants) (st : SpeedController) (v : ℚ)
    (hdrive : c.standStillSpeedMs ≤ |v|)
    (hsign : (0 < v ∧ st.target_speed < 0) ∨ (v < 0 ∧ 0 < st.target_speed)) :
    ((st.step c v).2).speed_pid.setpoint = 0 := by
  have hstand : ¬ (|v| < c.standStillSpeedMs) := not_lt.mpr hdrive
  have hxor : xor (isSignPositive v) (isSignPositive st.target_speed) = true := by
    rcases hsign with ⟨hv, ht⟩ | ⟨hv, ht⟩ <;>
      simp [isSignPositive, hv.le, not_le.mpr hv, not_le.mpr ht, ht.le]
  simp [SpeedController.step, Pid.nextControlOutput, hstand, hxor]

/-- Witness for `opposite_sign_speed_setpoint_zero`: target speed −3 (reverse)
while current speed is +2 (forward) — the setpoint fed to the speed PID on that
tick is 0. -/
theorem opposite_sign_speed_setpoint_zero_witness :
    (cA.standStillSpeedMs ≤ |(2 : ℚ)|) ∧
    ((((spdA.set_target cA (-3) 1).step cA 2).2).speed_pid.setpoint = 0) := by
  have htg : (spdA.set_target cA (-3) 1).target_speed = -3 := by
    norm_num [spdA, SpeedControllerInit.from_physics, SpeedControllerInit.build, physA,
      VehiclePhysics.new, SpeedController.set_target, rclamp]
  have hd : cA.standStillSpeedMs ≤ |(2 : ℚ)| := by norm_num [cA]
  refine ⟨hd, opposite_sign_speed_setpoint_zero cA _ 2 hd ?_⟩
  exact Or.inl ⟨by norm_num, by rw [htg]; norm_num⟩

/-- C8: `VehicleController::step` called with `dt ≤ 0` (including `dt = 0`)
fails the invalid-interval precondition immediately — no `Output` is produced
and no state (in particular no measurement) escapes — while every `dt > 0`
returns a result. -/
theorem step_dt_precondition (c : Constants) (st : VehicleController) (dt v s : ℚ) :
    (dt ≤ 0 → VehicleController.step c st dt v s = none) ∧
    (0 < dt → ∃ r, VehicleController.step c st dt v s = some r) := by
  constructor
  · intro h
    simp only [VehicleController.step]
    rw [if_neg (not_lt.mpr h)]
  · intro h
    simp only [VehicleController.step]
    rw [if_pos h]
    exact ⟨_, rfl⟩

/-- Witness for `step_dt_precondition`: `dt = 0` aborts, `dt = 1` returns. -/
theorem step_dt_precondition_witness :
    VehicleController.step cA ctrlA 0 1 0 = none ∧
    ∃ r, VehicleController.step cA ctrlA 1 1 0 = some r :=
  ⟨(step_dt_precondition cA ctrlA 0 1 0).1 (by norm_num),
   (step_dt_precondition cA ctrlA 1 1 0).2 (by norm_num)⟩

theorem classify_status_eq (steer : ℚ) (reverse : Bool) (p tlb bub mp : ℚ) :
    (classifyAndOutput false steer reverse p tlb bub mp).1
      = if tlb < p then .Accelerating else if bub < p then .Coasting else .Braking := by
  simp only [classifyAndOutput, Bool.false_eq_true, if_false]
  split_ifs <;> rfl

/-- C6 (amended): the code fixes `brake_upper_border = throttle_lower_border +
lay_off_engine_acceleration` with `lay_off_engine_acceleration < 0` for any
positive mass, so the borders satisfy `brakeUpperBorder < throttleLowerBorder`
(the claim has the inequality reversed).  Under that ordering, sweeping
`targetPedal` upward transitions Braking (`p ≤ bub`), Coasting
(`bub < p ≤ tlb`), Accelerating (`tlb < p`), monotonically, and no status
outside these three occurs on a non-FullStop tick. -/
theorem regime_band_ordering (steer p q mp m th vv sp : ℚ) (reverse rr : Bool)
    (tlb bub : ℚ) (h : bub < tlb) (hpq : p ≤ q) (hm : 0 < m) :
    ((classifyAndOutput false steer reverse p tlb bub mp).1 = .Braking ↔ p ≤ bub) ∧
    ((classifyAndOutput false steer reverse p tlb bub mp).1 = .Coasting ↔
      bub < p ∧ p ≤ tlb) ∧
    ((classifyAndOutput false steer reverse p tlb bub mp).1 = .Accelerating ↔ tlb < p) ∧
    Status.rank (classifyAndOutput false steer reverse p tlb bub mp).1
      ≤ Status.rank (classifyAndOutput false steer reverse q tlb bub mp).1 ∧
    (classifyAndOutput false steer reverse p tlb bub mp).1 ≠ .FullStop ∧
    (VehiclePhysics.new m th).driving_impedance_acceleration vv sp rr
        + (VehiclePhysics.new m th).lay_off_engine_acceleration
      < (VehiclePhysics.new m th).driving_impedance_acceleration vv sp rr := by
  have hlay : (VehiclePhysics.new m th).lay_off_engine_acceleration < 0 := by
    show -(500 : ℚ) / m < 0
    exact div_neg_of_neg_of_pos (by norm_num) hm
  rw [classify_status_eq, classify_status_eq]
  refine ⟨?_, ?_, ?_, ?_, ?_, by linarith⟩
  · rcases lt_or_le tlb p with h1 | h1
    · rw [if_pos h1]
      constructor
      · intro hc; cases hc
      · intro hc; linarith
    · rw [if_neg (not_lt.mpr h1)]
      rcases lt_or_le bub p with h2 | h2
      · rw [if_pos h2]
        constructor
        · intro hc; cases hc
        · intro hc; linarith
      · rw [if_neg (not_lt.mpr h2)]
        exact ⟨fun _ => h2, fun _ => rfl⟩
  · rcases lt_or_le tlb p with h1 | h1
    · rw [if_pos h1]
      constructor
      · intro hc; cases hc
      · intro hc; linarith [hc.2]
    · rw [if_neg (not_lt.mpr h1)]
      rcases lt_or_le bub p with h2 | h2
      · rw [if_pos h2]
        exact ⟨fun _ => ⟨h2, h1⟩, fun _ => rfl⟩
      · rw [if_neg (not_lt.mpr h2)]
        constructor
        · intro hc; cases hc
        · intro hc; linarith [hc.1]
  · rcases lt_or_le tlb p with h1 | h1
    · rw [if_pos h1]
      exact ⟨fun _ => h1, fun _ => rfl⟩
    · rw [if_neg (not_lt.mpr h1)]
      rcases lt_or_le bub p with h2 | h2
      · rw [if_pos h2]
        constructor
        · intro hc; cases hc
        · intro hc; linarith
      · rw [if_neg (not_lt.mpr h2)]
        constructor
        · intro hc; cases hc
        · intro hc; linarith
  · rcases lt_or_le tlb p with h1 | h1
    · rw [if_pos h1, if_pos (lt_of_lt_of_le h1 hpq)]
    · rw [if_neg (not_lt.mpr h1)]
      rcases lt_or_le bub p with h2 | h2
      · rw [if_pos h2]
        rcases lt_or_le tlb q with h3 | h3
        · rw [if_pos h3]; exact Nat.le_of_lt_succ (by norm_num [Status.rank])
        · rw [if_neg (not_lt.mpr h3), if_pos (lt_of_lt_of_le h2 hpq)]
      · rw [if_neg (not_lt.mpr h2)]
        simp [Status.rank]
  · rcases lt_or_le tlb p with h1 | h1
    · rw [if_pos h1]; intro hc; cases hc
    · rw [if_neg (not_lt.mpr h1)]
      rcases lt_or_le bub p with h2 | h2
      · rw [if_pos h2]; intro hc; cases hc
      · rw [if_neg (not_lt.mpr h2)]; intro hc; cases hc

/-- C6 counterexample: take borders in the claim's assumed order
`throttleLowerBorder = 0 < 1 = brakeUpperBorder` and `targetPedal = 1/2`, which
lies below `brakeUpperBorder` (where the claimed Braking-then-Coasting sweep
has not yet reached Accelerating): the code already classifies it Accelerating,
and no pedal value is classified Coasting under this border ordering, refuting
the claimed Braking → Coasting → Accelerating sweep. -/
theorem regime_order_cex :
    ((0 : ℚ) < 1) ∧ ((0 : ℚ) < 1/2) ∧ ((1/2 : ℚ) < 1) ∧
    (classifyAndOutput false 0 false (1/2) 0 1 3).1 = Status.Accelerating ∧
    Status.Accelerating ≠ Status.Coasting ∧ Status.Accelerating ≠ Status.Braking := by
  refine ⟨by norm_num, by norm_num, by norm_num, ?_, by decide, by decide⟩
  rw [classify_status_eq, if_pos (by norm_num)]

/-- Witness for `regime_band_ordering` at `bub = -1 < 1 = tlb`, pedal sweep
values 0 and 2, vehicle mass 1000. -/
theorem regime_band_ordering_witness :
    ((-1 : ℚ) < 1) ∧ ((0 : ℚ) ≤ 2) ∧ ((0 : ℚ) < 1000) ∧
    (((classifyAndOutput false 0 false 0 1 (-1) 3).1 = .Braking ↔ (0 : ℚ) ≤ -1) ∧
     ((classifyAndOutput false 0 false 0 1 (-1) 3).1 = .Coasting ↔
       (-1 : ℚ) < 0 ∧ (0 : ℚ) ≤ 1) ∧
     ((classifyAndOutput false 0 false 0 1 (-1) 3).1 = .Accelerating ↔ (1 : ℚ) < 0) ∧
     Status.rank (classifyAndOutput false 0 false 0 1 (-1) 3).1
       ≤ Status.rank (classifyAndOutput false 0 false 2 1 (-1) 3).1 ∧
     (classifyAndOutput false 0 false 0 1 (-1) 3).1 ≠ .FullStop ∧
     (VehiclePhysics.new 1000 1).driving_impedance_acceleration 0 0 false
         + (VehiclePhysics.new 1000 1).lay_off_engine_acceleration
       < (VehiclePhysics.new 1000 1).driving_impedance_acceleration 0 0 false) :=
  ⟨by norm_num, by norm_num, by norm_num,
   regime_band_ordering 0 0 2 3 1000 1 0 0 false false 1 (-1) (by norm_num) (by norm_num)
     (by norm_num)⟩

/-- C7 (amended): per step output at most one of throttle and brake is
non-zero; in FullStop and Accelerating exactly one of the two is non-zero
(given a positive `max_pedal`), and during Coasting both are zero; but in
Braking `brake = (brake_upper_border - target_pedal)/max_pedal` is merely
non-negative, and is zero exactly at the boundary
`target_pedal = brake_upper_border`, so a Braking tick can also emit both
zero. -/
theorem throttle_brake_exclusivity (fs : Bool) (steer : ℚ) (reverse : Bool)
    (p tlb bub mp : ℚ) (hmp : 0 < mp) :
    ((classifyAndOutput fs steer reverse p tlb bub mp).2.throttle = 0 ∨
      (classifyAndOutput fs steer reverse p tlb bub mp).2.brake = 0) ∧
    ((classifyAndOutput fs steer reverse p tlb bub mp).1 = .FullStop →
      (classifyAndOutput fs steer reverse p tlb bub mp).2.brake = 1 ∧
      (classifyAndOutput fs steer reverse p tlb bub mp).2.throttle = 0) ∧
    ((classifyAndOutput fs steer reverse p tlb bub mp).1 = .Accelerating →
      0 < (classifyAndOutput fs steer reverse p tlb bub mp).2.throttle ∧
      (classifyAndOutput fs steer reverse p tlb bub mp).2.brake = 0) ∧
    ((classifyAndOutput fs steer reverse p tlb bub mp).1 = .Coasting →
      (classifyAndOutput fs steer reverse p tlb bub mp).2.throttle = 0 ∧
      (classifyAndOutput fs steer reverse p tlb bub mp).2.brake = 0) ∧
    ((classifyAndOutput fs steer reverse p tlb bub mp).1 = .Braking →
      (classifyAndOutput fs steer reverse p tlb bub mp).2.throttle = 0 ∧
      0 ≤ (classifyAndOutput fs steer reverse p tlb bub mp).2.brake ∧
      ((classifyAndOutput fs steer reverse p tlb bub mp).2.brake = 0 ↔ p = bub)) := by
  cases fs with
  | true => simp [classifyAndOutput]
  | false =>
    rcases lt_or_le tlb p with h1 | h1
    · have : classifyAndOutput false steer reverse p tlb bub mp
          = (.Accelerating,
             { hand_brake := false, steer := steer, reverse := reverse, brake := 0
               throttle := (p - tlb) / mp }) := by
        simp only [classifyAndOutput, Bool.false_eq_true, if_false]
        rw [if_pos h1]
      rw [this]
      refine ⟨Or.inr rfl, by simp, fun _ => ⟨div_pos (sub_pos.mpr h1) hmp, rfl⟩,
        by simp, by simp⟩
    · rcases lt_or_le bub p with h2 | h2
      · have : classifyAndOutput false steer reverse p tlb bub mp
            = (.Coasting,
               { hand_brake := false, steer := steer, reverse := reverse, brake := 0
                 throttle := 0 }) := by
          simp only [classifyAndOutput, Bool.false_eq_true, if_false]
          rw [if_neg (not_lt.mpr h1), if_pos h2]
        rw [this]
        exact ⟨Or.inl rfl, by simp, by simp, fun _ => ⟨rfl, rfl⟩, by simp⟩
      · have hcls : classifyAndOutput false steer reverse p tlb bub mp
            = (.Braking,
               { hand_brake := false, steer := steer, reverse := reverse
                 brake := (bub - p) / mp, throttle := 0 }) := by
          simp only [classifyAndOutput, Bool.false_eq_true, if_false]
          rw [if_neg (not_lt.mpr h1), if_neg (not_lt.mpr h2)]
        rw [hcls]
        refine ⟨Or.inl rfl, by simp, by simp, by simp, fun _ => ⟨rfl, ?_, ?_⟩⟩
        · exact div_nonneg (sub_nonneg.mpr h2) hmp.le
        · rw [div_eq_zero_iff]
          constructor
          · intro hz
            rcases hz with hz | hz
            · linarith [sub_eq_zero.mp hz]
            · exact absurd hz (ne_of_gt hmp)
          · intro hz
            exact Or.inl (by rw [hz, sub_self])

/-- C7 counterexample: a reachable Braking tick whose output has BOTH
`brake = 0` and `throttle = 0`.  Starting from the freshly built controller for
`physA` with target `(0, 0, 0)`, one step at `dt = 1`, speed 1 m/s and pitch
sine `sinPitchBoundary` produces the pedal target −9/20 exactly equal to
`brake_upper_border`, so the Braking formula emits brake 0 — refuting both
"both are zero only when the reported status is Coasting" and "in the Braking
regime exactly one of the two is non-zero". -/
theorem braking_zero_brake_cex :
    (VehicleController.step cA stStopTarget 1 1 sinPitchBoundary).map
        (fun r => (r.2.1.status, r.1.brake, r.1.throttle))
      = some (Status.Braking, 0, 0) := by
  norm_num [VehicleController.step, SpeedController.step, AccelController.step,
    Pid.nextControlOutput, Measurement.update, classifyAndOutput, rclamp, isSignPositive,
    VehiclePhysics.driving_impedance_acceleration, SteerController.steer_ratio,
    AccelController.set_target_accel, AccelController.reset_target_pedal,
    stStopTarget, sinPitchBoundary, cA, ctrlA, physA, VehiclePhysics.new,
    VehicleController.from_physics, VehicleControllerInit.from_physics,
    VehicleControllerInit.build, SpeedControllerInit.from_physics, SpeedControllerInit.build,
    AccelControllerInit.from_physics, AccelControllerInit.build, PidInit.build,
    SteerController.new, SteerController.set_target, SpeedController.set_target,
    VehicleController.set_target, Measurement.default, DelayedActivator.new,
    ACCELERATION_OF_GRAVITY, min_def, max_def, abs_eq_max_neg]

/-- Witness for `throttle_brake_exclusivity` at a Braking input with the pedal
strictly below the border (brake strictly positive). -/
theorem throttle_brake_exclusivity_witness :
    ((0 : ℚ) < 3) ∧
    (((classifyAndOutput false 0 false (-1) 1 0 3).2.throttle = 0 ∨
       (classifyAndOutput false 0 false (-1) 1 0 3).2.brake = 0) ∧
     ((classifyAndOutput false 0 false (-1) 1 0 3).1 = .FullStop →
       (classifyAndOutput false 0 false (-1) 1 0 3).2.brake = 1 ∧
       (classifyAndOutput false 0 false (-1) 1 0 3).2.throttle = 0) ∧
     ((classifyAndOutput false 0 false (-1) 1 0 3).1 = .Accelerating →
       0 < (classifyAndOutput false 0 false (-1) 1 0 3).2.throttle ∧
       (classifyAndOutput false 0 false (-1) 1 0 3).2.brake = 0) ∧
     ((classifyAndOutput false 0 false (-1) 1 0 3).1 = .Coasting →
       (classifyAndOutput false 0 false (-1) 1 0 3).2.throttle = 0 ∧
       (classifyAndOutput false 0 false (-1) 1 0 3).2.brake = 0) ∧
     ((classifyAndOutput false 0 false (-1) 1 0 3).1 = .Braking →
       (classifyAndOutput false 0 false (-1) 1 0 3).2.throttle = 0 ∧
       0 ≤ (classifyAndOutput false 0 false (-1) 1 0 3).2.brake ∧
       ((classifyAndOutput false 0 false (-1) 1 0 3).2.brake = 0 ↔ (-1 : ℚ) = 0))) :=
  ⟨by norm_num, throttle_brake_exclusivity false 0 false (-1) 1 0 3 (by norm_num)⟩

/-- C2 (code-bug evaluation): at the failing input — controller `stPedalMax`
(all stored-state invariants satisfied, carried pedal at `max_pedal = 3`),
`dt = 1`, current speed 1 m/s, level road — `step` classifies Accelerating and
returns `throttle = (target_pedal - throttle_lower_border)/max_pedal =
64552519/62500000 > 1`: the code never clamps throttle (or brake) to `[0, 1]`,
contradicting the claimed output interval. -/
theorem throttle_exceeds_one :
    ((VehicleController.step cA stPedalMax 1 1 0).map
        (fun r => (r.2.1.status, r.1.throttle))
      = some (Status.Accelerating, 64552519/62500000)) ∧
    (1 : ℚ) < 64552519/62500000 := by
  constructor
  · norm_num [VehicleController.step, SpeedController.step, AccelController.step,
      Pid.nextControlOutput, Measurement.update, classifyAndOutput, rclamp, isSignPositive,
      VehiclePhysics.driving_impedance_acceleration, SteerController.steer_ratio,
      AccelController.set_target_accel, AccelController.reset_target_pedal,
      stPedalMax, cA, physA, VehiclePhysics.new, ACCELERATION_OF_GRAVITY,
      min_def, max_def, abs_eq_max_neg]
  · norm_num

/-- C1 counterexample: with current speed 0 — below the full-stop threshold —
but stored target speed 5, the tick is NOT FullStop (`is_full_stop` also
requires the target-speed magnitude below the threshold): the controller
classifies Accelerating and leaves the hand brake off, refuting "FullStop ...
regardless of the currently stored target speed". -/
theorem full_stop_requires_stop_target_cex :
    ((VehicleController.step cA (ctrlA.set_target cA ⟨0, 5, 1⟩) 1 0 0).map
        (fun r => (r.2.1.status, r.1.hand_brake)))
      = some (Status.Accelerating, false) := by
  norm_num [VehicleController.step, SpeedController.step, AccelController.step,
    Pid.nextControlOutput, Measurement.update, classifyAndOutput, rclamp, isSignPositive,
    VehiclePhysics.driving_impedance_acceleration, SteerController.steer_ratio,
    AccelController.set_target_accel, AccelController.reset_target_pedal,
    cA, ctrlA, physA, VehiclePhysics.new, VehicleController.from_physics,
    VehicleControllerInit.from_physics, VehicleControllerInit.build,
    SpeedControllerInit.from_physics, SpeedControllerInit.build,
    AccelControllerInit.from_physics, AccelControllerInit.build, PidInit.build,
    SteerController.new, SteerController.set_target, SpeedController.set_target,
    VehicleController.set_target, Measurement.default, DelayedActivator.new,
    ACCELERATION_OF_GRAVITY, min_def, max_def, abs_eq_max_neg]

theorem speed_step_full_stop (c : Constants) (st : SpeedController) (v : ℚ)
    (hst : |v| < c.standStillSpeedMs) (htg : |st.target_speed| < c.fullStopSpeedMs) :
    ((SpeedController.step c st v).1).full_stop = true := by
  simp [SpeedController.step, hst, htg]

theorem vehicle_step_full_stop (c : Constants) (st : VehicleController) (dt v s : ℚ)
    (hdt : 0 < dt) (hst : |v| < c.standStillSpeedMs)
    (htg : |st.speed_controller.target_speed| < c.fullStopSpeedMs) :
    ∃ rep st',
      VehicleController.step c st dt v s = some
        (⟨0, 1, st.steer_controller.steer_ratio,
          decide (st.speed_controller.target_speed < 0), true⟩, rep, st') ∧
      rep.status = Status.FullStop ∧
      st'.speed_controller.target_speed = st.speed_controller.target_speed := by
  have hfs := speed_step_full_stop c st.speed_controller v hst htg
  simp only [VehicleController.step]
  rw [if_pos hdt, hfs]
  simp only [classifyAndOutput, eq_self_iff_true, if_true]
  exact ⟨_, _, rfl, rfl, rfl⟩

theorem runTicks_full_stop (c : Constants) (hthr : c.fullStopSpeedMs ≤ c.standStillSpeedMs) :
    ∀ (inputs : List (ℚ × ℚ × ℚ)) (st : VehicleController),
      |st.speed_controller.target_speed| < c.fullStopSpeedMs →
      (∀ x ∈ inputs, 0 < x.1 ∧ |x.2.1| < c.fullStopSpeedMs) →
      ∃ outs stF, runTicks c st inputs = some (outs, stF) ∧
        ∀ pr ∈ outs, pr.2.status = Status.FullStop ∧ pr.1.hand_brake = true ∧
          pr.1.brake = 1 ∧ pr.1.throttle = 0
  | [], st, _, _ => ⟨[], st, rfl, by simp⟩
  | (dt, v, s) :: rest, st, htg, hin => by
    obtain ⟨hdt, hv⟩ := hin (dt, v, s) (List.mem_cons_self _ _)
    have hst : |v| < c.standStillSpeedMs := lt_of_lt_of_le hv hthr
    obtain ⟨rep, st', hstep, hstat, htg'⟩ := vehicle_step_full_stop c st dt v s hdt hst htg
    have htg'' : |st'.speed_controller.target_speed| < c.fullStopSpeedMs := by
      rw [htg']
      exact htg
    obtain ⟨outs, stF, hrun, hall⟩ := runTicks_full_stop c hthr rest st' htg''
      (fun x hx => hin x (List.mem_cons_of_mem _ hx))
    refine ⟨((⟨0, 1, st.steer_controller.steer_ratio,
        decide (st.speed_controller.target_speed < 0), true⟩ : Output), rep) :: outs,
        stF, ?_, ?_⟩
    · simp [runTicks, hstep, hrun]
    · intro pr hpr
      rcases List.mem_cons.mp hpr with hpr | hpr
      · rw [hpr]
        exact ⟨hstat, rfl, rfl, rfl⟩
      · exact hall pr hpr

/-- C1 (amended): for every run in which the measured speed magnitude stays
below the full-stop threshold AND the stored target speed magnitude is below
the full-stop threshold (the code's `is_full_stop` requires both; the original
claim's "regardless of the currently stored target speed" fails), every tick
reports FullStop with `hand_brake = true`, `brake = 1`, `throttle = 0`; and on
such a tick the acceleration stage's carried pedal target is reset to 0 before
its update — the step result is entirely independent of the previously carried
pedal value. -/
theorem full_stop_convergence (c : Constants) (st : VehicleController)
    (inputs : List (ℚ × ℚ × ℚ)) (dt v s pedal : ℚ)
    (hthr : c.fullStopSpeedMs ≤ c.standStillSpeedMs)
    (htg : |st.speed_controller.target_speed| < c.fullStopSpeedMs)
    (hin : ∀ x ∈ inputs, 0 < x.1 ∧ |x.2.1| < c.fullStopSpeedMs)
    (hdt : 0 < dt) (hv : |v| < c.fullStopSpeedMs) :
    (∃ outs stF, runTicks c st inputs = some (outs, stF) ∧
       ∀ pr ∈ outs, pr.2.status = Status.FullStop ∧ pr.1.hand_brake = true ∧
         pr.1.brake = 1 ∧ pr.1.throttle = 0) ∧
    VehicleController.step c
        { st with accel_controller := { st.accel_controller with target_pedal := pedal } }
        dt v s
      = VehicleController.step c
          { st with accel_controller := { st.accel_controller with target_pedal := 0 } }
          dt v s := by
  constructor
  · exact runTicks_full_stop c hthr inputs st htg hin
  · have hst : |v| < c.standStillSpeedMs := lt_of_lt_of_le hv hthr
    have hfs := speed_step_full_stop c st.speed_controller v hst htg
    simp only [VehicleController.step]
    rw [if_pos hdt, if_pos hdt]
    simp only [AccelController.set_target_accel, AccelController.reset_target_pedal]
    rw [hfs]
    simp

/-- Witness for `full_stop_convergence`: fresh controller (stored target speed
0), one tick at 0.05 m/s, and carried-pedal independence at pedal 5. -/
theorem full_stop_convergence_witness :
    (∃ outs stF, runTicks cA ctrlA [(1, 1/20, 0)] = some (outs, stF) ∧
       ∀ pr ∈ outs, pr.2.status = Status.FullStop ∧ pr.1.hand_brake = true ∧
         pr.1.brake = 1 ∧ pr.1.throttle = 0) ∧
    VehicleController.step cA
        { ctrlA with accel_controller := { ctrlA.accel_controller with target_pedal := 5 } }
        1 0 0
      = VehicleController.step cA
          { ctrlA with accel_controller := { ctrlA.accel_controller with target_pedal := 0 } }
          1 0 0 := by
  have htg : |ctrlA.speed_controller.target_speed| < cA.fullStopSpeedMs := by
    norm_num [ctrlA, VehicleController.from_physics, VehicleControllerInit.from_physics,
      VehicleControllerInit.build, SpeedControllerInit.from_physics, SpeedControllerInit.build,
      physA, VehiclePhysics.new, cA]
  refine full_stop_convergence cA ctrlA [(1, 1/20, 0)] 1 0 0 5 (by norm_num [cA]) htg
    ?_ (by norm_num) (by norm_num [cA])
  intro x hx
  simp only [List.mem_singleton] at hx
  subst hx
  norm_num [cA, abs_of_nonneg]

end CarlaAckermann
